import Mathlib

/-!
# Verification of the parallel batch-processing engine

Shallow embedding of the repository's batch-processing core:

* `src/src/parallel_extractor.py` — `ProcessingResult`, `ParallelTableExtractor`
  (`__init__`, `_process_single_file`, `_save_result`,
  `process_folder_parallel`, `process_folder_sequential`);
* `src/src/extractor.py` — `TableExtractor.process_folder`, `save_to_text`;
* `src/performance_benchmark.py` — `PerformanceBenchmark._analyze_results`
  (optimal-worker selection).

Modelling conventions:

* Python floats (times, sizes in MB) are embedded as rationals `ℚ`; the claims
  under study concern guards, counts and permutation-invariant sums, not
  floating-point rounding.
* The extraction collaborator (`self.extract_tables`, a network call) and the
  file write performed inside `_save_result` are oracles supplied per file
  through a `TaskEnv`: the extraction call either raises or returns the result
  dictionary, the write either succeeds or raises.
* Python dictionaries with varying key sets are embedded as structures with
  `Option` fields (`none` = key absent).
* A raising Python call is embedded in the `Except String` monad; a `try`/
  `except Exception` block is a `match` on that value.
* `ThreadPoolExecutor` + `as_completed` deliver every submitted future exactly
  once, in a nondeterministic order: the parallel runner is parametrised by a
  `completion_order` list, and theorems assume it is a permutation of the
  submitted file list (the concurrency axiom of the embedding).
-/

/-- Extension-to-table record produced by `TableExtractor._extract_table`
(`src/src/extractor.py:137`); only its presence in the `tables` list matters
to the batch engine (`len(result['tables'])`). -/
structure TableData where
  headers : List String
  rows : List (List String)
  row_count : Nat
  column_count : Nat
deriving DecidableEq

/-- The dictionary returned by `TableExtractor.extract_tables`
(`src/src/extractor.py:94` and `:103`): `error` is `none` when the key is
absent (the success shape has no `error` key). -/
structure ExtractResult where
  success : Bool
  error : Option String
  text : String
  tables : List TableData
  pages : Nat
  processor : String
deriving DecidableEq

/-- Outcome of one call to the extraction collaborator: it either raises
(e.g. `FileNotFoundError`, `src/src/extractor.py:68`) or returns a result
dictionary. -/
inductive ExtractOutcome where
  | raised (msg : String)
  | returned (r : ExtractResult)
deriving DecidableEq

deriving instance DecidableEq for Except

/-- Per-file oracle: outcome of the extraction call, outcome of the output
file write, the value of `_get_file_size_mb` (which swallows its own errors
and returns `0.0`, `src/src/parallel_extractor.py:68`), and the elapsed
wall-clock time observed for the task. -/
structure TaskEnv where
  extract : ExtractOutcome
  write : Except String Unit
  fileSizeMb : ℚ
  elapsed : ℚ
deriving DecidableEq

/-- `ProcessingResult` dataclass (`src/src/parallel_extractor.py:21`). -/
structure ProcessingResult where
  file_path : String
  success : Bool
  processing_time : ℚ
  error : Option String := none
  tables_count : Nat := 0
  pages_count : Nat := 0
  file_size_mb : ℚ := 0
deriving DecidableEq

/-- `ParallelTableExtractor._save_result` (`src/src/parallel_extractor.py:146`):
the whole body is a `try` whose `except Exception` clause only logs, so the
method returns normally whether or not the underlying write raised. -/
def save_result (write : Except String Unit) : Except String Unit :=
  match write with
  | Except.ok _ => Except.ok ()
  | Except.error _ => Except.ok ()

/-- `ParallelTableExtractor._process_single_file`
(`src/src/parallel_extractor.py:76`). The body of its `try` is embedded in the
`Except` monad; the trailing `except Exception` converts any escaping
exception into a failed `ProcessingResult`. The `output_folder` argument only
determines where `_save_result` writes, which the `write` oracle models. -/
def process_single_file (file_path output_folder : String) (env : TaskEnv) :
    ProcessingResult :=
  let file_size := env.fileSizeMb
  let body : Except String ProcessingResult :=
    match env.extract with
    | ExtractOutcome.raised msg => Except.error msg
    | ExtractOutcome.returned result =>
        if result.success then
          match save_result env.write with
          | Except.error e => Except.error e
          | Except.ok _ =>
              Except.ok { file_path := file_path, success := true,
                          processing_time := env.elapsed,
                          tables_count := result.tables.length,
                          pages_count := result.pages,
                          file_size_mb := file_size }
        else
          Except.ok { file_path := file_path, success := false,
                      processing_time := env.elapsed,
                      error := some (result.error.getD "Unknown error"),
                      file_size_mb := file_size }
  match body with
  | Except.ok r => r
  | Except.error msg =>
      { file_path := file_path, success := false,
        processing_time := env.elapsed, error := some msg,
        file_size_mb := file_size }

/-- `true` exactly when the extraction collaborator raised or returned a
dictionary with `success=False`. -/
def extract_failed : ExtractOutcome → Bool
  | ExtractOutcome.raised _ => true
  | ExtractOutcome.returned r => !r.success

/-- The extension allow-list (`src/src/parallel_extractor.py:193` and `:283`,
`src/src/extractor.py:193`). -/
def supported_extensions : List String :=
  [".png", ".jpg", ".jpeg", ".gif", ".bmp", ".tiff", ".pdf"]

/-- `os.path.splitext(name)[1]` for a directory entry (no path separator in
`name`): the extension starts at the last dot, except that a name whose
characters before the last dot are all dots (e.g. `".bashrc"`, `"..."`) has no
extension. -/
def splitext_ext (name : String) : String :=
  let cs := name.data
  match cs.reverse.findIdx? (fun c => c == '.') with
  | none => ""
  | some k =>
      let d := cs.length - 1 - k
      if (cs.take d).any (fun c => c != '.') then String.mk (cs.drop d) else ""

/-- Python `str.lower()` restricted to what the extension filter needs:
character-wise ASCII lowercasing. -/
def str_lower (s : String) : String := String.mk (s.data.map Char.toLower)

/-- `os.path.join(folder, name)` for a POSIX folder path with no trailing
separator. -/
def path_join (folder name : String) : String := folder ++ "/" ++ name

/-- The file-enumeration loop shared by `process_folder_parallel`
(`src/src/parallel_extractor.py:196`), `process_folder_sequential` (`:286`)
and `TableExtractor.process_folder` (`src/src/extractor.py:197`): when the
input folder exists, keep the directory entries whose lower-cased extension is
supported and join them onto the folder path. `folder_exists` and `listing`
stand for `os.path.exists` and `os.listdir`. -/
def enumerate_files (folder_exists : Bool) (listing : List String)
    (input_folder : String) : List String :=
  if folder_exists then
    (listing.filter
        (fun filename => supported_extensions.contains (str_lower (splitext_ext filename)))).map
      (path_join input_folder)
  else []

/-- The report dictionary returned by `process_folder_parallel` and
`process_folder_sequential`: `Option` fields model dictionary keys that are
present only in one of the two return shapes (the "no supported files" shape,
`src/src/parallel_extractor.py:202`, versus the completed-batch shape,
`:250` and `:333`). -/
structure BatchReport where
  success : Bool
  error : Option String := none
  processed : Option Nat := none
  total_files : Option Nat := none
  successful : Option Nat := none
  failed : Option Nat := none
  total_time : Option ℚ := none
  total_processing_time : Option ℚ := none
  avg_processing_time : Option ℚ := none
  total_file_size_mb : Option ℚ := none
  throughput : Option ℚ := none
  max_workers : Option Int := none
  results : List ProcessingResult := []
  timestamp : Option String := none
deriving DecidableEq

/-- The early-return value of both batch runners when no supported file was
found (`src/src/parallel_extractor.py:202` and `:292`). -/
def no_files_report (input_folder : String) : BatchReport :=
  { success := false,
    error := some ("No supported files found in " ++ input_folder),
    processed := some 0,
    results := [] }

/-- The result-collection loop (`src/src/parallel_extractor.py:225` and
`:307`): starting from `successful = failed = 0`, bump one counter per
collected `ProcessingResult` according to its `success` flag. -/
def countOutcomes (results : List ProcessingResult) : Nat × Nat :=
  results.foldl
    (fun acc r => if r.success then (acc.1 + 1, acc.2) else (acc.1, acc.2 + 1))
    (0, 0)

/-- `len(results) / total_time if total_time > 0 else 0`
(`src/src/parallel_extractor.py:245` and `:328`). -/
def throughput_of (n : Nat) (total_time : ℚ) : ℚ :=
  if 0 < total_time then (n : ℚ) / total_time else 0

/-- The metric-aggregation block shared verbatim by the two batch runners
(`src/src/parallel_extractor.py:239-263` and `:322-346`): counts, summed
per-task durations, average, summed file sizes, guarded throughput, and the
completed-batch report dictionary. `mw` is the value stored under
`max_workers` (`self.max_workers` in the parallel runner, the literal `1` in
the sequential one). -/
def aggregate_report (mw : Int) (total_files : Nat)
    (results : List ProcessingResult) (wall : ℚ) (ts : String) : BatchReport :=
  let counts := countOutcomes results
  let total_processing_time := (results.map (fun r => r.processing_time)).sum
  let avg_processing_time :=
    if results.length = 0 then 0 else total_processing_time / (results.length : ℚ)
  let total_file_size := (results.map (fun r => r.file_size_mb)).sum
  { success := true,
    total_files := some total_files,
    successful := some counts.1,
    failed := some counts.2,
    total_time := some wall,
    total_processing_time := some total_processing_time,
    avg_processing_time := some avg_processing_time,
    total_file_size_mb := some total_file_size,
    throughput := some (throughput_of results.length wall),
    max_workers := some mw,
    results := results,
    timestamp := some ts }

/-- The `with ThreadPoolExecutor ... as_completed` block of
`process_folder_parallel` (`src/src/parallel_extractor.py:217-263`): one task
per enumerated file, every future collected exactly once in completion order,
then the shared aggregation block. `completion_order` is the order in which
`as_completed` yields the futures; the executor guarantees it is a permutation
of `image_files`. -/
def run_parallel_batch (mw : Int) (env : String → TaskEnv)
    (output_folder : String) (image_files completion_order : List String)
    (wall : ℚ) (ts : String) : BatchReport :=
  let results :=
    completion_order.map (fun fp => process_single_file fp output_folder (env fp))
  aggregate_report mw image_files.length results wall ts

/-- `ParallelTableExtractor.process_folder_parallel`
(`src/src/parallel_extractor.py:175`). The empty-enumeration check precedes
pool construction, so it returns its report even for an invalid worker count;
`ThreadPoolExecutor.__init__` raises `ValueError` when `max_workers <= 0`,
which propagates out of the method (the `Except.error` branch). -/
def process_folder_parallel (mw : Int) (env : String → TaskEnv)
    (input_folder output_folder : String) (folder_exists : Bool)
    (listing completion_order : List String) (wall : ℚ) (ts : String) :
    Except String BatchReport :=
  let image_files := enumerate_files folder_exists listing input_folder
  if image_files.isEmpty then
    Except.ok (no_files_report input_folder)
  else if mw ≤ 0 then
    Except.error "max_workers must be greater than 0"
  else
    Except.ok
      (run_parallel_batch mw env output_folder image_files completion_order wall ts)

/-- `ParallelTableExtractor.process_folder_sequential`
(`src/src/parallel_extractor.py:265`): same enumeration and aggregation, tasks
run in enumeration order, and the report's `max_workers` key is the literal
`1` (`:343`) regardless of the extractor's configured `mw`. -/
def process_folder_sequential (mw : Int) (env : String → TaskEnv)
    (input_folder output_folder : String) (folder_exists : Bool)
    (listing : List String) (wall : ℚ) (ts : String) : BatchReport :=
  let image_files := enumerate_files folder_exists listing input_folder
  if image_files.isEmpty then
    no_files_report input_folder
  else
    let results :=
      image_files.map (fun fp => process_single_file fp output_folder (env fp))
    aggregate_report 1 image_files.length results wall ts

/-- `ParallelTableExtractor` object state relevant to the claims: the worker
bound stored by `__init__` (`src/src/parallel_extractor.py:49`). -/
structure ParallelTableExtractor where
  max_workers : Int
deriving DecidableEq

/-- `ParallelTableExtractor.__init__` (`src/src/parallel_extractor.py:41`):
runs the base `TableExtractor.__init__` (whose environment-dependent outcome
is the `base` oracle — it can raise over missing credentials or processors,
never over the worker count) and stores `max_workers` unvalidated. -/
def ParallelTableExtractor.init (base : Except String Unit) (max_workers : Int) :
    Except String ParallelTableExtractor :=
  match base with
  | Except.error e => Except.error e
  | Except.ok _ => Except.ok { max_workers := max_workers }

/-- `os.path.basename` for a POSIX path: the part after the last `/`. -/
def basename (p : String) : String :=
  let cs := p.data
  match cs.reverse.findIdx? (fun c => c == '/') with
  | none => p
  | some k => String.mk (cs.drop (cs.length - k))

/-- `os.path.splitext(name)[0]`: the name with its `splitext_ext` removed. -/
def splitext_root (name : String) : String :=
  let cs := name.data
  String.mk (cs.take (cs.length - (splitext_ext name).length))

/-- `TableExtractor.save_to_text` (`src/src/extractor.py:272`): performs the
write inside a `try` and returns `True` on success, `False` when the write
raised. -/
def save_to_text (write : Except String Unit) : Bool :=
  match write with
  | Except.ok _ => true
  | Except.error _ => false

/-- One entry of the `results` list built by `TableExtractor.process_folder`
(`src/src/extractor.py:235`, `:244`, `:251`, `:259`): `Option` fields model
the keys present only in some of the four dictionary shapes. -/
structure FolderItemResult where
  input_file : String
  output_file : Option String := none
  success : Bool
  error : Option String := none
  tables_found : Option Nat := none
  pages : Option Nat := none
deriving DecidableEq

/-- The per-file `try` body of `TableExtractor.process_folder`
(`src/src/extractor.py:220-263`): extract, then save via `save_to_text`; a
save failure yields a failed entry, an extraction failure yields a failed
entry with the reported error, and an escaping exception is caught by the
trailing `except`. -/
def process_folder_file (image_path output_folder : String) (env : TaskEnv) :
    FolderItemResult :=
  let filename := basename image_path
  let body : Except String FolderItemResult :=
    match env.extract with
    | ExtractOutcome.raised msg => Except.error msg
    | ExtractOutcome.returned result =>
        if result.success then
          if save_to_text env.write then
            Except.ok { input_file := filename,
                        output_file := some (splitext_root filename ++ "_extracted.txt"),
                        success := true,
                        tables_found := some result.tables.length,
                        pages := some result.pages }
          else
            Except.ok { input_file := filename, success := false,
                        error := some "Failed to save output file" }
        else
          Except.ok { input_file := filename, success := false,
                      error := some (result.error.getD "Unknown error") }
  match body with
  | Except.ok r => r
  | Except.error msg =>
      { input_file := filename, success := false, error := some msg }

/-- The report dictionary returned by `TableExtractor.process_folder`
(`src/src/extractor.py:204` and `:265`): the empty-enumeration shape carries
`error`/`processed` and no `total`; the completed shape carries
`processed`/`total` and no `error`. -/
structure FolderReport where
  success : Bool
  error : Option String := none
  processed : Option Nat := none
  total : Option Nat := none
  results : List FolderItemResult := []
deriving DecidableEq

/-- `TableExtractor.process_folder` (`src/src/extractor.py:178`): enumerate,
early-return the "no supported image files" shape on an empty enumeration,
otherwise run every file sequentially while counting save-successful ones, and
report `success = (successful > 0)`. -/
def process_folder (env : String → TaskEnv) (input_folder output_folder : String)
    (folder_exists : Bool) (listing : List String) : FolderReport :=
  let image_files := enumerate_files folder_exists listing input_folder
  if image_files.isEmpty then
    { success := false,
      error := some ("No supported image files found in " ++ input_folder),
      processed := some 0,
      results := [] }
  else
    let acc :=
      image_files.foldl
        (fun (acc : List FolderItemResult × Nat) p =>
          let item := process_folder_file p output_folder (env p)
          (acc.1 ++ [item], if item.success then acc.2 + 1 else acc.2))
        ([], 0)
    { success := decide (0 < acc.2),
      processed := some acc.2,
      total := some image_files.length,
      results := acc.1 }

/-- `sequential_time / total_times[i] if total_times[i] > 0 else 1`
(`src/performance_benchmark.py:176`). -/
def speedup_of (sequential_time total_time : ℚ) : ℚ :=
  if 0 < total_time then sequential_time / total_time else 1

/-- `efficiency = speedup / workers` (`src/performance_benchmark.py:177`). -/
def efficiency_of (sequential_time total_time : ℚ) (workers : Nat) : ℚ :=
  speedup_of sequential_time total_time / (workers : ℚ)

/-- The `efficiencies` list built by `PerformanceBenchmark._analyze_results`
(`src/performance_benchmark.py:175-179`): per non-baseline configuration
(`worker_counts[1:]`, paired with `total_times[1:]`), the efficiency of the
observed speedup against the sequential baseline. -/
def sweep_efficiencies (sequential_time : ℚ) (worker_counts : List Nat)
    (total_times : List ℚ) : List ℚ :=
  ((worker_counts.drop 1).zip (total_times.drop 1)).map
    (fun wt => efficiency_of sequential_time wt.2 wt.1)

/-- Python's `max` over a non-empty list, split as head and tail. -/
def list_max (e : ℚ) (es : List ℚ) : ℚ := es.foldl max e

/-- `worker_counts[1:][efficiencies.index(max(efficiencies))] if efficiencies
else 1` (`src/performance_benchmark.py:184`): the non-baseline worker count
at the first index attaining the maximal efficiency. -/
def optimal_workers (sequential_time : ℚ) (worker_counts : List Nat)
    (total_times : List ℚ) : Nat :=
  match sweep_efficiencies sequential_time worker_counts total_times with
  | [] => 1
  | e :: es =>
      ((worker_counts.drop 1).get?
          ((e :: es).indexOf (list_max e es))).getD 1

/-! ## Basic lemmas about the task function -/

lemma process_single_file_file_path (fp outf : String) (env : TaskEnv) :
    (process_single_file fp outf env).file_path = fp := by
  obtain ⟨ex, w, fs, el⟩ := env
  cases ex with
  | raised m => rfl
  | returned r =>
      cases hr : r.success <;> cases w <;>
        simp [process_single_file, save_result, hr]

lemma process_single_file_success (fp outf : String) (env : TaskEnv) :
    (process_single_file fp outf env).success = !(extract_failed env.extract) := by
  obtain ⟨ex, w, fs, el⟩ := env
  cases ex with
  | raised m => rfl
  | returned r =>
      cases hr : r.success <;> cases w <;>
        simp [process_single_file, save_result, extract_failed, hr]

lemma process_single_file_error_isSome (fp outf : String) (env : TaskEnv) :
    ((process_single_file fp outf env).error).isSome = extract_failed env.extract := by
  obtain ⟨ex, w, fs, el⟩ := env
  cases ex with
  | raised m => rfl
  | returned r =>
      cases hr : r.success <;> cases w <;>
        simp [process_single_file, save_result, extract_failed, hr]

/-! ## Counting lemmas for the result-collection loop -/

lemma countOutcomes_foldl (rs : List ProcessingResult) (a b : Nat) :
    rs.foldl
        (fun acc r => if r.success then (acc.1 + 1, acc.2) else (acc.1, acc.2 + 1))
        (a, b)
      = (a + rs.countP (fun r => r.success), b + rs.countP (fun r => !r.success)) := by
  induction rs generalizing a b with
  | nil => simp
  | cons r rs ih =>
      cases hr : r.success <;>
        simp [List.countP_cons, hr, ih] <;> omega

lemma countOutcomes_eq (rs : List ProcessingResult) :
    countOutcomes rs
      = (rs.countP (fun r => r.success), rs.countP (fun r => !r.success)) := by
  simpa using countOutcomes_foldl rs 0 0

lemma countOutcomes_add (rs : List ProcessingResult) :
    (countOutcomes rs).1 + (countOutcomes rs).2 = rs.length := by
  rw [countOutcomes_eq]
  have h := (List.length_eq_countP_add_countP (fun r => r.success) rs).symm
  simpa using h

/-! ## Lemmas about Python `max` and `list.index` -/

lemma foldl_max_mem (e : ℚ) (es : List ℚ) : list_max e es ∈ e :: es := by
  induction es generalizing e with
  | nil => simp [list_max]
  | cons a es ih =>
      have h := ih (max e a)
      rcases List.mem_cons.mp h with h1 | h1
      · rw [list_max] at h1 ⊢
        simp only [List.foldl_cons]
        rw [h1]
        rcases max_choice e a with h2 | h2 <;> rw [h2] <;> simp
      · rw [list_max] at h1 ⊢
        simp only [List.foldl_cons]
        exact List.mem_cons_of_mem _ (List.mem_cons_of_mem _ h1)

lemma le_foldl_max (e : ℚ) (es : List ℚ) : ∀ x ∈ e :: es, x ≤ list_max e es := by
  induction es generalizing e with
  | nil =>
      intro x hx
      simp at hx
      simp [list_max, hx]
  | cons a es ih =>
      intro x hx
      have step : ∀ y ∈ max e a :: es, y ≤ list_max e (a :: es) := by
        intro y hy
        simpa [list_max] using ih (max e a) y hy
      rcases List.mem_cons.mp hx with rfl | hx'
      · exact le_trans (le_max_left x a) (step _ (List.mem_cons_self _ _))
      · rcases List.mem_cons.mp hx' with rfl | hx''
        · exact le_trans (le_max_right e x) (step _ (List.mem_cons_self _ _))
        · exact step x (List.mem_cons_of_mem _ hx'')

lemma indexOf_le_of_get_eq {α : Type} [DecidableEq α] (l : List α) (a : α)
    (k : Nat) (hk : k < l.length) (h : l.get ⟨k, hk⟩ = a) : l.indexOf a ≤ k := by
  induction l generalizing k with
  | nil => simp at hk
  | cons b t ih =>
      cases k with
      | zero =>
          simp only [List.get] at h
          rw [List.indexOf_cons_eq _ h]
      | succ k =>
          by_cases hb : b = a
          · rw [List.indexOf_cons_eq _ hb]
            omega
          · rw [List.indexOf_cons_ne _ hb]
            have hk' : k < t.length := by simpa using hk
            have := ih k hk' (by simpa using h)
            omega

/-! ## Claim theorems -/

/-- C3: `_process_single_file` is total at the component boundary — for every
file path, output folder and extraction/write/timing oracle it returns a
`ProcessingResult` (its Lean type, with no escaping `Except`), carrying the
input path; the result is failed exactly when the extraction collaborator
raised or reported failure, and every failed result has a populated error
string. Totality of the task function is what keeps one task's failure from
aborting sibling tasks or the batch. -/
theorem process_single_file_total_encodes_failure
    (file_path output_folder : String) (env : TaskEnv) :
    (process_single_file file_path output_folder env).file_path = file_path ∧
    (process_single_file file_path output_folder env).success
      = !(extract_failed env.extract) ∧
    ((process_single_file file_path output_folder env).error).isSome
      = extract_failed env.extract :=
  ⟨process_single_file_file_path file_path output_folder env,
   process_single_file_success file_path output_folder env,
   process_single_file_error_isSome file_path output_folder env⟩

/-- Concrete oracle for the C7 counterexample: the extraction succeeds with
one page and no tables, and the output-artifact write raises. -/
def env_save_fail : TaskEnv :=
  { extract := ExtractOutcome.returned
      { success := true, error := none, text := "", tables := [],
        pages := 1, processor := "ocr" },
    write := Except.error "disk full",
    fileSizeMb := 1, elapsed := 1 }

/-- C7 counterexample: for a task whose extraction succeeds but whose output
write fails, `_process_single_file` still returns `success = True` with no
error — the write failure is swallowed inside `_save_result`
(`src/src/parallel_extractor.py:172`), so the claim that such a task's
`ProcessingResult` has `success = false` is false on the code. -/
theorem save_failure_reports_success_counterexample :
    (process_single_file "inputs/a.png" "outputs" env_save_fail).success = true ∧
    (process_single_file "inputs/a.png" "outputs" env_save_fail).error = none :=
  ⟨rfl, rfl⟩

/-- C7 (amended): for every task whose extraction succeeds but whose
output-artifact write fails, `_save_result` catches the write error and only
logs it, so the `ProcessingResult` produced for that task still has
`success = true` and no error; and the results of all other tasks are
unaffected (a task's result depends only on its own file and oracle). -/
theorem save_failure_swallowed_fault_isolated
    (fp outf : String) (env : TaskEnv) (r : ExtractResult) (e : String)
    (hx : env.extract = ExtractOutcome.returned r) (hs : r.success = true)
    (hw : env.write = Except.error e) :
    (process_single_file fp outf env).success = true ∧
    (process_single_file fp outf env).error = none ∧
    (∀ (envf envf' : String → TaskEnv) (p : String),
      (∀ q : String, q ≠ p → envf q = envf' q) →
      ∀ (order : List String), ∀ fp' ∈ order, fp' ≠ p →
        process_single_file fp' outf (envf fp')
          = process_single_file fp' outf (envf' fp')) := by
  obtain ⟨ex, w, fs, el⟩ := env
  simp only at hx hw
  subst hx hw
  refine ⟨?_, ?_, ?_⟩
  · simp [process_single_file, save_result, hs]
  · simp [process_single_file, save_result, hs]
  · intro envf envf' p hagree order fp' _ hne
    rw [hagree fp' hne]

/-- C7 witness: the amended theorem applied to the concrete failing-write
oracle. -/
theorem save_failure_swallowed_witness :
    (process_single_file "inputs/a.png" "outputs" env_save_fail).success = true ∧
    (process_single_file "inputs/a.png" "outputs" env_save_fail).error = none ∧
    (∀ (envf envf' : String → TaskEnv) (p : String),
      (∀ q : String, q ≠ p → envf q = envf' q) →
      ∀ (order : List String), ∀ fp' ∈ order, fp' ≠ p →
        process_single_file fp' "outputs" (envf fp')
          = process_single_file fp' "outputs" (envf' fp')) :=
  save_failure_swallowed_fault_isolated "inputs/a.png" "outputs" env_save_fail
    { success := true, error := none, text := "", tables := [],
      pages := 1, processor := "ocr" }
    "disk full" rfl rfl rfl

/-- C8 counterexample: `ParallelTableExtractor.__init__` with
`max_workers = 0` does not raise — it returns the constructed object with the
invalid bound stored (`src/src/parallel_extractor.py:49` performs no
validation), so the claim that construction raises for every
`max_workers <= 0` is false on the code. -/
theorem init_accepts_nonpositive_workers_counterexample :
    ParallelTableExtractor.init (Except.ok ()) 0
      = Except.ok { max_workers := 0 } := rfl

/-- C8 (amended): construction never validates the worker count —
`__init__` stores any `max_workers` value (nonpositive included) and returns
normally whenever the base initializer does; a bound `<= 0` only raises
later, when `process_folder_parallel` constructs the thread pool over a
non-empty enumeration (`ThreadPoolExecutor` raises
`ValueError("max_workers must be greater than 0")`). -/
theorem init_stores_any_worker_count
    (w w0 : Int) (env : String → TaskEnv) (input_folder output_folder : String)
    (folder_exists : Bool) (listing completion_order : List String)
    (wall : ℚ) (ts : String)
    (hw0 : w0 ≤ 0)
    (hne : enumerate_files folder_exists listing input_folder ≠ []) :
    ParallelTableExtractor.init (Except.ok ()) w
      = Except.ok { max_workers := w } ∧
    ParallelTableExtractor.init (Except.ok ()) w0
      = Except.ok { max_workers := w0 } ∧
    process_folder_parallel w0 env input_folder output_folder folder_exists
        listing completion_order wall ts
      = Except.error "max_workers must be greater than 0" := by
  refine ⟨rfl, rfl, ?_⟩
  rw [process_folder_parallel]
  simp only [List.isEmpty_iff]
  rw [if_neg hne, if_pos hw0]

/-- C8 witness: the amended theorem at `max_workers = 0` over a one-file
listing. -/
theorem init_stores_any_worker_count_witness :
    ParallelTableExtractor.init (Except.ok ()) 5
      = Except.ok { max_workers := 5 } ∧
    ParallelTableExtractor.init (Except.ok ()) 0
      = Except.ok { max_workers := 0 } ∧
    process_folder_parallel 0 (fun _ => env_save_fail) "inputs" "outputs" true
        ["a.png"] ["inputs/a.png"] 1 "t"
      = Except.error "max_workers must be greater than 0" :=
  init_stores_any_worker_count 5 0 (fun _ => env_save_fail) "inputs" "outputs"
    true ["a.png"] ["inputs/a.png"] 1 "t" (by decide) (by decide)

/-- Reduction of `process_folder_parallel` when the enumeration is non-empty
and the worker bound valid: the guards fall away and the executor block runs. -/
lemma process_folder_parallel_ok (mw : Int) (env : String → TaskEnv)
    (input_folder output_folder : String) (folder_exists : Bool)
    (listing completion_order : List String) (wall : ℚ) (ts : String)
    (hne : enumerate_files folder_exists listing input_folder ≠ [])
    (hw : 1 ≤ mw) :
    process_folder_parallel mw env input_folder output_folder folder_exists
        listing completion_order wall ts
      = Except.ok (run_parallel_batch mw env output_folder
          (enumerate_files folder_exists listing input_folder)
          completion_order wall ts) := by
  rw [process_folder_parallel]
  simp only [List.isEmpty_iff]
  rw [if_neg hne, if_neg (by omega)]

/-- C1: for every non-empty enumerated file list and every worker count
`W >= 1`, `process_folder_parallel` returns exactly one `ProcessingResult`
per enumerated file: the `results` list has the length of the enumeration,
its `file_path` projections are a permutation of the enumerated paths, and
(for the duplicate-free listings `os.listdir` produces) each path appears as
the `file_path` of exactly one result — regardless of completion order, i.e.
even when some tasks fail. -/
theorem parallel_results_no_loss_no_duplication
    (mw : Int) (env : String → TaskEnv)
    (input_folder output_folder ts : String) (folder_exists : Bool)
    (listing completion_order : List String) (wall : ℚ)
    (imgs : List String)
    (himgs : enumerate_files folder_exists listing input_folder = imgs)
    (hw : 1 ≤ mw) (hne : imgs ≠ [])
    (horder : completion_order.Perm imgs) :
    process_folder_parallel mw env input_folder output_folder folder_exists
        listing completion_order wall ts
      = Except.ok (run_parallel_batch mw env output_folder imgs
          completion_order wall ts) ∧
    (run_parallel_batch mw env output_folder imgs
        completion_order wall ts).results.length = imgs.length ∧
    ((run_parallel_batch mw env output_folder imgs
        completion_order wall ts).results.map (fun r => r.file_path)).Perm imgs ∧
    (∀ p : String,
      ((run_parallel_batch mw env output_folder imgs
          completion_order wall ts).results.map (fun r => r.file_path)).count p
        = imgs.count p) ∧
    (imgs.Nodup → ∀ p ∈ imgs,
      ((run_parallel_batch mw env output_folder imgs
          completion_order wall ts).results.map (fun r => r.file_path)).count p
        = 1) := by
  have hres : (run_parallel_batch mw env output_folder imgs
      completion_order wall ts).results
      = completion_order.map
          (fun fp => process_single_file fp output_folder (env fp)) := rfl
  have hmap : (completion_order.map
        (fun fp => process_single_file fp output_folder (env fp))).map
          (fun r => r.file_path)
      = completion_order := by
    rw [List.map_map]
    refine Eq.trans (List.map_congr_left ?_) (List.map_id completion_order)
    intro fp _
    exact process_single_file_file_path fp output_folder (env fp)
  refine ⟨?_, ?_, ?_, ?_, ?_⟩
  · rw [← himgs]
    exact process_folder_parallel_ok mw env input_folder output_folder
      folder_exists listing completion_order wall ts (himgs ▸ hne) hw
  · rw [hres, List.length_map, horder.length_eq]
  · rw [hres, hmap]
    exact horder
  · intro p
    rw [hres, hmap]
    exact horder.count_eq p
  · intro hnd p hp
    rw [hres, hmap, horder.count_eq p]
    exact List.count_eq_one_of_mem hnd hp

/-- Shared fixed environment for the concrete witnesses. -/
def envW : String → TaskEnv := fun _ => env_save_fail

/-- C1 witness: two files submitted with `W = 2`, collected in reversed
completion order. -/
theorem parallel_results_no_loss_no_duplication_witness :
    process_folder_parallel 2 envW "inputs" "outputs" true ["a.png", "b.pdf"]
        ["inputs/b.pdf", "inputs/a.png"] 1 "t"
      = Except.ok (run_parallel_batch 2 envW "outputs"
          ["inputs/a.png", "inputs/b.pdf"]
          ["inputs/b.pdf", "inputs/a.png"] 1 "t") ∧
    (run_parallel_batch 2 envW "outputs" ["inputs/a.png", "inputs/b.pdf"]
        ["inputs/b.pdf", "inputs/a.png"] 1 "t").results.length
      = (["inputs/a.png", "inputs/b.pdf"] : List String).length ∧
    ((run_parallel_batch 2 envW "outputs" ["inputs/a.png", "inputs/b.pdf"]
        ["inputs/b.pdf", "inputs/a.png"] 1 "t").results.map
          (fun r => r.file_path)).Perm ["inputs/a.png", "inputs/b.pdf"] ∧
    (∀ p : String,
      ((run_parallel_batch 2 envW "outputs" ["inputs/a.png", "inputs/b.pdf"]
          ["inputs/b.pdf", "inputs/a.png"] 1 "t").results.map
            (fun r => r.file_path)).count p
        = (["inputs/a.png", "inputs/b.pdf"] : List String).count p) ∧
    ((["inputs/a.png", "inputs/b.pdf"] : List String).Nodup →
      ∀ p ∈ (["inputs/a.png", "inputs/b.pdf"] : List String),
        ((run_parallel_batch 2 envW "outputs" ["inputs/a.png", "inputs/b.pdf"]
            ["inputs/b.pdf", "inputs/a.png"] 1 "t").results.map
              (fun r => r.file_path)).count p = 1) :=
  parallel_results_no_loss_no_duplication 2 envW "inputs" "outputs" "t" true
    ["a.png", "b.pdf"] ["inputs/b.pdf", "inputs/a.png"] 1
    ["inputs/a.png", "inputs/b.pdf"] (by decide) (by decide) (by decide)
    (by decide)

/-- Reduction of `process_folder_sequential` when the enumeration is
non-empty: the sequential loop followed by the shared aggregation block. -/
lemma process_folder_sequential_run (mw : Int) (env : String → TaskEnv)
    (input_folder output_folder : String) (folder_exists : Bool)
    (listing : List String) (wall : ℚ) (ts : String)
    (hne : enumerate_files folder_exists listing input_folder ≠ []) :
    process_folder_sequential mw env input_folder output_folder folder_exists
        listing wall ts
      = aggregate_report 1
          (enumerate_files folder_exists listing input_folder).length
          ((enumerate_files folder_exists listing input_folder).map
            (fun fp => process_single_file fp output_folder (env fp)))
          wall ts := by
  rw [process_folder_sequential]
  simp only [List.isEmpty_iff]
  rw [if_neg hne]

/-- The aggregation block is invariant under permuting the collected results
(and ignores the worker bound, wall clock and timestamp for the count and sum
fields). -/
lemma aggregate_report_perm_fields (mwa mwb : Int) (tf : Nat)
    (rs rs' : List ProcessingResult) (w w' : ℚ) (t t' : String)
    (hperm : rs.Perm rs') :
    (aggregate_report mwa tf rs w t).successful
      = (aggregate_report mwb tf rs' w' t').successful ∧
    (aggregate_report mwa tf rs w t).failed
      = (aggregate_report mwb tf rs' w' t').failed ∧
    (aggregate_report mwa tf rs w t).total_files
      = (aggregate_report mwb tf rs' w' t').total_files ∧
    (aggregate_report mwa tf rs w t).total_processing_time
      = (aggregate_report mwb tf rs' w' t').total_processing_time ∧
    (aggregate_report mwa tf rs w t).total_file_size_mb
      = (aggregate_report mwb tf rs' w' t').total_file_size_mb ∧
    (aggregate_report mwa tf rs w t).avg_processing_time
      = (aggregate_report mwb tf rs' w' t').avg_processing_time := by
  have hc : countOutcomes rs = countOutcomes rs' := by
    rw [countOutcomes_eq, countOutcomes_eq,
      hperm.countP_eq (fun r => r.success),
      hperm.countP_eq (fun r => !r.success)]
  have hsum1 : (rs.map (fun r => r.processing_time)).sum
      = (rs'.map (fun r => r.processing_time)).sum :=
    (hperm.map (fun r => r.processing_time)).sum_eq
  have hsum2 : (rs.map (fun r => r.file_size_mb)).sum
      = (rs'.map (fun r => r.file_size_mb)).sum :=
    (hperm.map (fun r => r.file_size_mb)).sum_eq
  have hlen : rs.length = rs'.length := hperm.length_eq
  refine ⟨?_, ?_, rfl, ?_, ?_, ?_⟩ <;>
    simp [aggregate_report, hc, hsum1, hsum2, hlen]

/-- C2: every batch report produced by a run over a non-empty enumeration
satisfies `successful + failed = total_files`, for both
`process_folder_parallel` and `process_folder_sequential`. -/
theorem batch_report_counts_sum
    (mw : Int) (env : String → TaskEnv)
    (input_folder output_folder ts ts' : String) (folder_exists : Bool)
    (listing completion_order : List String) (wall wall' : ℚ)
    (imgs : List String)
    (himgs : enumerate_files folder_exists listing input_folder = imgs)
    (hw : 1 ≤ mw) (hne : imgs ≠ [])
    (horder : completion_order.Perm imgs) :
    (process_folder_parallel mw env input_folder output_folder folder_exists
        listing completion_order wall ts
      = Except.ok (run_parallel_batch mw env output_folder imgs
          completion_order wall ts) ∧
     ∃ s f, (run_parallel_batch mw env output_folder imgs
          completion_order wall ts).successful = some s ∧
        (run_parallel_batch mw env output_folder imgs
          completion_order wall ts).failed = some f ∧
        (run_parallel_batch mw env output_folder imgs
          completion_order wall ts).total_files = some imgs.length ∧
        s + f = imgs.length) ∧
    (∃ s f, (process_folder_sequential mw env input_folder output_folder
          folder_exists listing wall' ts').successful = some s ∧
        (process_folder_sequential mw env input_folder output_folder
          folder_exists listing wall' ts').failed = some f ∧
        (process_folder_sequential mw env input_folder output_folder
          folder_exists listing wall' ts').total_files = some imgs.length ∧
        s + f = imgs.length) := by
  have hp := process_folder_parallel_ok mw env input_folder output_folder
    folder_exists listing completion_order wall ts (himgs ▸ hne) hw
  have hs := process_folder_sequential_run mw env input_folder output_folder
    folder_exists listing wall' ts' (himgs ▸ hne)
  constructor
  · constructor
    · rw [← himgs]
      exact hp
    · refine ⟨(countOutcomes (completion_order.map
          (fun fp => process_single_file fp output_folder (env fp)))).1,
        (countOutcomes (completion_order.map
          (fun fp => process_single_file fp output_folder (env fp)))).2,
        rfl, rfl, rfl, ?_⟩
      rw [countOutcomes_add, List.length_map, horder.length_eq]
  · rw [hs, himgs]
    refine ⟨(countOutcomes (imgs.map
        (fun fp => process_single_file fp output_folder (env fp)))).1,
      (countOutcomes (imgs.map
        (fun fp => process_single_file fp output_folder (env fp)))).2,
      rfl, rfl, rfl, ?_⟩
    rw [countOutcomes_add, List.length_map]

/-- C2 witness: the counts invariant at a concrete two-file batch. -/
theorem batch_report_counts_sum_witness :
    (process_folder_parallel 2 envW "inputs" "outputs" true ["a.png", "b.pdf"]
        ["inputs/b.pdf", "inputs/a.png"] 1 "t"
      = Except.ok (run_parallel_batch 2 envW "outputs"
          ["inputs/a.png", "inputs/b.pdf"]
          ["inputs/b.pdf", "inputs/a.png"] 1 "t") ∧
     ∃ s f, (run_parallel_batch 2 envW "outputs"
          ["inputs/a.png", "inputs/b.pdf"]
          ["inputs/b.pdf", "inputs/a.png"] 1 "t").successful = some s ∧
        (run_parallel_batch 2 envW "outputs" ["inputs/a.png", "inputs/b.pdf"]
          ["inputs/b.pdf", "inputs/a.png"] 1 "t").failed = some f ∧
        (run_parallel_batch 2 envW "outputs" ["inputs/a.png", "inputs/b.pdf"]
          ["inputs/b.pdf", "inputs/a.png"] 1 "t").total_files
          = some (["inputs/a.png", "inputs/b.pdf"] : List String).length ∧
        s + f = (["inputs/a.png", "inputs/b.pdf"] : List String).length) ∧
    (∃ s f, (process_folder_sequential 2 envW "inputs" "outputs" true
          ["a.png", "b.pdf"] 2 "t2").successful = some s ∧
        (process_folder_sequential 2 envW "inputs" "outputs" true
          ["a.png", "b.pdf"] 2 "t2").failed = some f ∧
        (process_folder_sequential 2 envW "inputs" "outputs" true
          ["a.png", "b.pdf"] 2 "t2").total_files
          = some (["inputs/a.png", "inputs/b.pdf"] : List String).length ∧
        s + f = (["inputs/a.png", "inputs/b.pdf"] : List String).length) :=
  batch_report_counts_sum 2 envW "inputs" "outputs" "t" "t2" true
    ["a.png", "b.pdf"] ["inputs/b.pdf", "inputs/a.png"] 1 2
    ["inputs/a.png", "inputs/b.pdf"] (by decide) (by decide) (by decide)
    (by decide)

/-- C4: over the same enumeration and the same (deterministic, per-path)
task oracle, the sequential runner and the parallel runner — whatever its
worker count `W >= 1` and completion order — produce reports with identical
`successful`, `failed` and `total_files` counts and identical aggregate sums
(`total_processing_time`, `total_file_size_mb`, and hence also the derived
`avg_processing_time`); the reports differ only in the wall-clock
`total_time` and `max_workers` fields (and timestamp). -/
theorem sequential_parallel_same_aggregates
    (mw : Int) (env : String → TaskEnv)
    (input_folder output_folder tsS tsP : String) (folder_exists : Bool)
    (listing completion_order : List String) (wallS wallP : ℚ)
    (imgs : List String)
    (himgs : enumerate_files folder_exists listing input_folder = imgs)
    (hw : 1 ≤ mw) (hne : imgs ≠ [])
    (horder : completion_order.Perm imgs) :
    process_folder_parallel mw env input_folder output_folder folder_exists
        listing completion_order wallP tsP
      = Except.ok (run_parallel_batch mw env output_folder imgs
          completion_order wallP tsP) ∧
    (run_parallel_batch mw env output_folder imgs
        completion_order wallP tsP).successful
      = (process_folder_sequential mw env input_folder output_folder
          folder_exists listing wallS tsS).successful ∧
    (run_parallel_batch mw env output_folder imgs
        completion_order wallP tsP).failed
      = (process_folder_sequential mw env input_folder output_folder
          folder_exists listing wallS tsS).failed ∧
    (run_parallel_batch mw env output_folder imgs
        completion_order wallP tsP).total_files
      = (process_folder_sequential mw env input_folder output_folder
          folder_exists listing wallS tsS).total_files ∧
    (run_parallel_batch mw env output_folder imgs
        completion_order wallP tsP).total_processing_time
      = (process_folder_sequential mw env input_folder output_folder
          folder_exists listing wallS tsS).total_processing_time ∧
    (run_parallel_batch mw env output_folder imgs
        completion_order wallP tsP).total_file_size_mb
      = (process_folder_sequential mw env input_folder output_folder
          folder_exists listing wallS tsS).total_file_size_mb ∧
    (run_parallel_batch mw env output_folder imgs
        completion_order wallP tsP).avg_processing_time
      = (process_folder_sequential mw env input_folder output_folder
          folder_exists listing wallS tsS).avg_processing_time ∧
    (run_parallel_batch mw env output_folder imgs
        completion_order wallP tsP).total_time = some wallP ∧
    (process_folder_sequential mw env input_folder output_folder
        folder_exists listing wallS tsS).total_time = some wallS ∧
    (run_parallel_batch mw env output_folder imgs
        completion_order wallP tsP).max_workers = some mw ∧
    (process_folder_sequential mw env input_folder output_folder
        folder_exists listing wallS tsS).max_workers = some 1 := by
  have hseq := process_folder_sequential_run mw env input_folder output_folder
    folder_exists listing wallS tsS (himgs ▸ hne)
  have hperm : (completion_order.map
        (fun fp => process_single_file fp output_folder (env fp))).Perm
      (imgs.map (fun fp => process_single_file fp output_folder (env fp))) :=
    horder.map _
  have hfields := aggregate_report_perm_fields mw 1 imgs.length
    (completion_order.map (fun fp => process_single_file fp output_folder (env fp)))
    (imgs.map (fun fp => process_single_file fp output_folder (env fp)))
    wallP wallS tsP tsS hperm
  have hrun : run_parallel_batch mw env output_folder imgs completion_order wallP tsP
      = aggregate_report mw imgs.length
          (completion_order.map
            (fun fp => process_single_file fp output_folder (env fp)))
          wallP tsP := rfl
  refine ⟨?_, ?_, ?_, ?_, ?_, ?_, ?_, rfl, ?_, rfl, ?_⟩
  · rw [← himgs]
    exact process_folder_parallel_ok mw env input_folder output_folder
      folder_exists listing completion_order wallP tsP (himgs ▸ hne) hw
  · rw [hseq, himgs, hrun]
    exact hfields.1
  · rw [hseq, himgs, hrun]
    exact hfields.2.1
  · rw [hseq, himgs, hrun]
    exact hfields.2.2.1
  · rw [hseq, himgs, hrun]
    exact hfields.2.2.2.1
  · rw [hseq, himgs, hrun]
    exact hfields.2.2.2.2.1
  · rw [hseq, himgs, hrun]
    exact hfields.2.2.2.2.2
  · rw [hseq, himgs]
    rfl
  · rw [hseq, himgs]
    rfl

/-- C4 witness: sequential versus `W = 2` parallel over the same two files,
with different wall clocks and timestamps. -/
theorem sequential_parallel_same_aggregates_witness :
    process_folder_parallel 2 envW "inputs" "outputs" true ["a.png", "b.pdf"]
        ["inputs/b.pdf", "inputs/a.png"] 1 "tp"
      = Except.ok (run_parallel_batch 2 envW "outputs"
          ["inputs/a.png", "inputs/b.pdf"]
          ["inputs/b.pdf", "inputs/a.png"] 1 "tp") ∧
    (run_parallel_batch 2 envW "outputs" ["inputs/a.png", "inputs/b.pdf"]
        ["inputs/b.pdf", "inputs/a.png"] 1 "tp").successful
      = (process_folder_sequential 2 envW "inputs" "outputs" true
          ["a.png", "b.pdf"] 3 "ts").successful ∧
    (run_parallel_batch 2 envW "outputs" ["inputs/a.png", "inputs/b.pdf"]
        ["inputs/b.pdf", "inputs/a.png"] 1 "tp").failed
      = (process_folder_sequential 2 envW "inputs" "outputs" true
          ["a.png", "b.pdf"] 3 "ts").failed ∧
    (run_parallel_batch 2 envW "outputs" ["inputs/a.png", "inputs/b.pdf"]
        ["inputs/b.pdf", "inputs/a.png"] 1 "tp").total_files
      = (process_folder_sequential 2 envW "inputs" "outputs" true
          ["a.png", "b.pdf"] 3 "ts").total_files ∧
    (run_parallel_batch 2 envW "outputs" ["inputs/a.png", "inputs/b.pdf"]
        ["inputs/b.pdf", "inputs/a.png"] 1 "tp").total_processing_time
      = (process_folder_sequential 2 envW "inputs" "outputs" true
          ["a.png", "b.pdf"] 3 "ts").total_processing_time ∧
    (run_parallel_batch 2 envW "outputs" ["inputs/a.png", "inputs/b.pdf"]
        ["inputs/b.pdf", "inputs/a.png"] 1 "tp").total_file_size_mb
      = (process_folder_sequential 2 envW "inputs" "outputs" true
          ["a.png", "b.pdf"] 3 "ts").total_file_size_mb ∧
    (run_parallel_batch 2 envW "outputs" ["inputs/a.png", "inputs/b.pdf"]
        ["inputs/b.pdf", "inputs/a.png"] 1 "tp").avg_processing_time
      = (process_folder_sequential 2 envW "inputs" "outputs" true
          ["a.png", "b.pdf"] 3 "ts").avg_processing_time ∧
    (run_parallel_batch 2 envW "outputs" ["inputs/a.png", "inputs/b.pdf"]
        ["inputs/b.pdf", "inputs/a.png"] 1 "tp").total_time = some 1 ∧
    (process_folder_sequential 2 envW "inputs" "outputs" true
        ["a.png", "b.pdf"] 3 "ts").total_time = some 3 ∧
    (run_parallel_batch 2 envW "outputs" ["inputs/a.png", "inputs/b.pdf"]
        ["inputs/b.pdf", "inputs/a.png"] 1 "tp").max_workers = some 2 ∧
    (process_folder_sequential 2 envW "inputs" "outputs" true
        ["a.png", "b.pdf"] 3 "ts").max_workers = some 1 :=
  sequential_parallel_same_aggregates 2 envW "inputs" "outputs" "ts" "tp" true
    ["a.png", "b.pdf"] ["inputs/b.pdf", "inputs/a.png"] 3 1
    ["inputs/a.png", "inputs/b.pdf"] (by decide) (by decide) (by decide)
    (by decide)

/-- C5: in every completed batch report the `throughput` field is the value
of the guarded formula `throughput_of`: total task count divided by the
wall-clock duration when that duration is positive, and `0` — not a
division-by-zero fault — when the duration is `0`; and the formula yields `0`
for a zero-task count as well. -/
theorem throughput_guarded
    (mw : Int) (env : String → TaskEnv)
    (input_folder output_folder ts ts' : String) (folder_exists : Bool)
    (listing completion_order : List String) (wall wall' : ℚ)
    (imgs : List String)
    (himgs : enumerate_files folder_exists listing input_folder = imgs)
    (hw : 1 ≤ mw) (hne : imgs ≠ [])
    (horder : completion_order.Perm imgs) :
    process_folder_parallel mw env input_folder output_folder folder_exists
        listing completion_order wall ts
      = Except.ok (run_parallel_batch mw env output_folder imgs
          completion_order wall ts) ∧
    (run_parallel_batch mw env output_folder imgs
        completion_order wall ts).throughput
      = some (throughput_of imgs.length wall) ∧
    (process_folder_sequential mw env input_folder output_folder folder_exists
        listing wall' ts').throughput
      = some (throughput_of imgs.length wall') ∧
    (0 < wall → throughput_of imgs.length wall = (imgs.length : ℚ) / wall) ∧
    throughput_of imgs.length 0 = 0 ∧
    (∀ t : ℚ, throughput_of 0 t = 0) := by
  refine ⟨?_, ?_, ?_, ?_, ?_, ?_⟩
  · rw [← himgs]
    exact process_folder_parallel_ok mw env input_folder output_folder
      folder_exists listing completion_order wall ts (himgs ▸ hne) hw
  · show some (throughput_of (completion_order.map
        (fun fp => process_single_file fp output_folder (env fp))).length wall)
      = some (throughput_of imgs.length wall)
    rw [List.length_map, horder.length_eq]
  · rw [process_folder_sequential_run mw env input_folder output_folder
      folder_exists listing wall' ts' (himgs ▸ hne), himgs]
    show some (throughput_of (imgs.map
        (fun fp => process_single_file fp output_folder (env fp))).length wall')
      = some (throughput_of imgs.length wall')
    rw [List.length_map]
  · intro hwall
    rw [throughput_of, if_pos hwall]
  · rw [throughput_of]
    norm_num
  · intro t
    rw [throughput_of]
    rcases lt_or_le 0 t with h | h
    · rw [if_pos h]
      norm_num
    · rw [if_neg (not_lt.mpr h)]

/-- C5 witness: the throughput field and guard at a concrete batch, with the
degenerate duration and task-count cases evaluated. -/
theorem throughput_guarded_witness :
    process_folder_parallel 2 envW "inputs" "outputs" true ["a.png", "b.pdf"]
        ["inputs/b.pdf", "inputs/a.png"] 4 "t"
      = Except.ok (run_parallel_batch 2 envW "outputs"
          ["inputs/a.png", "inputs/b.pdf"]
          ["inputs/b.pdf", "inputs/a.png"] 4 "t") ∧
    (run_parallel_batch 2 envW "outputs" ["inputs/a.png", "inputs/b.pdf"]
        ["inputs/b.pdf", "inputs/a.png"] 4 "t").throughput
      = some (throughput_of (["inputs/a.png", "inputs/b.pdf"] : List String).length 4) ∧
    (process_folder_sequential 2 envW "inputs" "outputs" true
        ["a.png", "b.pdf"] 0 "t2").throughput
      = some (throughput_of (["inputs/a.png", "inputs/b.pdf"] : List String).length 0) ∧
    ((0 : ℚ) < 4 →
      throughput_of (["inputs/a.png", "inputs/b.pdf"] : List String).length 4
        = ((["inputs/a.png", "inputs/b.pdf"] : List String).length : ℚ) / 4) ∧
    throughput_of (["inputs/a.png", "inputs/b.pdf"] : List String).length 0 = 0 ∧
    (∀ t : ℚ, throughput_of 0 t = 0) :=
  throughput_guarded 2 envW "inputs" "outputs" "t" "t2" true
    ["a.png", "b.pdf"] ["inputs/b.pdf", "inputs/a.png"] 4 0
    ["inputs/a.png", "inputs/b.pdf"] (by decide) (by decide) (by decide)
    (by decide)

/-- C6: over an empty enumeration all three batch runners return their
report-shaped "nothing to process" value without raising (`success = False`,
an `error` message, `processed = 0`, empty `results`), and that value is
distinguishable from the report of a batch that actually ran — for the two
`ParallelTableExtractor` runners a ran report has `success = True`; for
`TableExtractor.process_folder` a ran report (even one with zero successes)
carries a `total` key the empty-input value lacks. -/
theorem empty_input_report_distinguishable
    (mw : Int) (env : String → TaskEnv)
    (input_folder output_folder ts ts' : String) (fe fe' : Bool)
    (listing listing' order order' : List String) (wall wall' : ℚ)
    (hempty : enumerate_files fe listing input_folder = [])
    (hne' : enumerate_files fe' listing' input_folder ≠ []) :
    process_folder_parallel mw env input_folder output_folder fe listing
        order wall ts
      = Except.ok (no_files_report input_folder) ∧
    process_folder_sequential mw env input_folder output_folder fe listing
        wall ts
      = no_files_report input_folder ∧
    process_folder env input_folder output_folder fe listing
      = { success := false,
          error := some ("No supported image files found in " ++ input_folder),
          processed := some 0, results := [] } ∧
    (no_files_report input_folder).success = false ∧
    (∀ r : BatchReport,
      process_folder_parallel mw env input_folder output_folder fe' listing'
          order' wall' ts'
        = Except.ok r →
      r.success = true ∧ r ≠ no_files_report input_folder) ∧
    (process_folder_sequential mw env input_folder output_folder fe' listing'
        wall' ts').success = true ∧
    process_folder_sequential mw env input_folder output_folder fe' listing'
        wall' ts'
      ≠ no_files_report input_folder ∧
    process_folder env input_folder output_folder fe' listing'
      ≠ { success := false,
          error := some ("No supported image files found in " ++ input_folder),
          processed := some 0, results := [] } := by
  have hseq' := process_folder_sequential_run mw env input_folder output_folder
    fe' listing' wall' ts' hne'
  refine ⟨?_, ?_, ?_, rfl, ?_, ?_, ?_, ?_⟩
  · rw [process_folder_parallel]
    simp only [List.isEmpty_iff]
    rw [if_pos hempty]
  · rw [process_folder_sequential]
    simp only [List.isEmpty_iff]
    rw [if_pos hempty]
  · rw [process_folder]
    simp only [List.isEmpty_iff]
    rw [if_pos hempty]
  · intro r hr
    rw [process_folder_parallel] at hr
    simp only [List.isEmpty_iff] at hr
    rw [if_neg hne'] at hr
    by_cases hmw : mw ≤ 0
    · rw [if_pos hmw] at hr
      cases hr
    · rw [if_neg hmw] at hr
      obtain rfl := (Except.ok.inj hr).symm
      refine ⟨rfl, ?_⟩
      intro hcontra
      have hsucc := congrArg BatchReport.success hcontra
      simp [no_files_report, run_parallel_batch, aggregate_report] at hsucc
  · rw [hseq']
    rfl
  · rw [hseq']
    intro hcontra
    have hsucc := congrArg BatchReport.success hcontra
    simp [no_files_report, aggregate_report] at hsucc
  · intro hcontra
    have htot := congrArg FolderReport.total hcontra
    rw [process_folder] at htot
    simp only [List.isEmpty_iff] at htot
    rw [if_neg hne'] at htot
    simp at htot

/-- C6 witness: an empty listing versus a one-file listing, with a worker
count of `0` on the empty path to exercise "no throw" there too. -/
theorem empty_input_report_distinguishable_witness :
    process_folder_parallel 0 envW "inputs" "outputs" true [] [] 1 "t"
      = Except.ok (no_files_report "inputs") ∧
    process_folder_sequential 0 envW "inputs" "outputs" true [] 1 "t"
      = no_files_report "inputs" ∧
    process_folder envW "inputs" "outputs" true []
      = { success := false,
          error := some ("No supported image files found in " ++ "inputs"),
          processed := some 0, results := [] } ∧
    (no_files_report "inputs").success = false ∧
    (∀ r : BatchReport,
      process_folder_parallel 0 envW "inputs" "outputs" true ["a.png"]
          ["inputs/a.png"] 2 "t2"
        = Except.ok r →
      r.success = true ∧ r ≠ no_files_report "inputs") ∧
    (process_folder_sequential 0 envW "inputs" "outputs" true ["a.png"]
        2 "t2").success = true ∧
    process_folder_sequential 0 envW "inputs" "outputs" true ["a.png"] 2 "t2"
      ≠ no_files_report "inputs" ∧
    process_folder envW "inputs" "outputs" true ["a.png"]
      ≠ { success := false,
          error := some ("No supported image files found in " ++ "inputs"),
          processed := some 0, results := [] } :=
  empty_input_report_distinguishable 0 envW "inputs" "outputs" "t" "t2"
    true true [] ["a.png"] [] ["inputs/a.png"] 1 2 (by decide) (by decide)

/-- C10: the report of `process_folder_sequential` records `max_workers = 1`
whatever worker bound the extractor was constructed with, while the report of
`process_folder_parallel` records the configured bound (over completed
batches; the empty-enumeration shape of either runner carries no
`max_workers` key at all). -/
theorem sequential_workers_one_parallel_configured
    (mw : Int) (env : String → TaskEnv)
    (input_folder output_folder tsS tsP : String) (folder_exists : Bool)
    (listing completion_order : List String) (wallS wallP : ℚ)
    (hne : enumerate_files folder_exists listing input_folder ≠ [])
    (hw : 1 ≤ mw) :
    (process_folder_sequential mw env input_folder output_folder folder_exists
        listing wallS tsS).max_workers = some 1 ∧
    process_folder_parallel mw env input_folder output_folder folder_exists
        listing completion_order wallP tsP
      = Except.ok (run_parallel_batch mw env output_folder
          (enumerate_files folder_exists listing input_folder)
          completion_order wallP tsP) ∧
    (run_parallel_batch mw env output_folder
        (enumerate_files folder_exists listing input_folder)
        completion_order wallP tsP).max_workers = some mw := by
  refine ⟨?_, ?_, rfl⟩
  · rw [process_folder_sequential_run mw env input_folder output_folder
      folder_exists listing wallS tsS hne]
    rfl
  · exact process_folder_parallel_ok mw env input_folder output_folder
      folder_exists listing completion_order wallP tsP hne hw

/-- C10 witness: an extractor configured with `max_workers = 5`. -/
theorem sequential_workers_one_parallel_configured_witness :
    (process_folder_sequential 5 envW "inputs" "outputs" true ["a.png"]
        1 "ts").max_workers = some 1 ∧
    process_folder_parallel 5 envW "inputs" "outputs" true ["a.png"]
        ["inputs/a.png"] 2 "tp"
      = Except.ok (run_parallel_batch 5 envW "outputs"
          (enumerate_files true ["a.png"] "inputs")
          ["inputs/a.png"] 2 "tp") ∧
    (run_parallel_batch 5 envW "outputs"
        (enumerate_files true ["a.png"] "inputs")
        ["inputs/a.png"] 2 "tp").max_workers = some 5 :=
  sequential_workers_one_parallel_configured 5 envW "inputs" "outputs"
    "ts" "tp" true ["a.png"] ["inputs/a.png"] 1 2 (by decide) (by decide)

/-- C9: `_analyze_results` selects as optimal the non-baseline configuration
(`worker_counts[1:]`, paired positionally with `total_times[1:]`) whose
efficiency is maximal, and because the sweep visits worker counts in
ascending order and `list.index` returns the first maximal index, ties on
maximal efficiency resolve to the lowest worker count. -/
theorem optimal_workers_max_efficiency_lowest_tie
    (sequential_time : ℚ) (w0 : Nat) (t0 : ℚ)
    (rest : List Nat) (tts : List ℚ)
    (hlen : tts.length = rest.length) (hne : rest ≠ [])
    (hsorted : rest.Pairwise (· < ·)) :
    ∃ i : Fin rest.length,
      optimal_workers sequential_time (w0 :: rest) (t0 :: tts) = rest.get i ∧
      (∀ j : Fin rest.length,
        efficiency_of sequential_time (tts.get (Fin.cast hlen.symm j)) (rest.get j)
          ≤ efficiency_of sequential_time (tts.get (Fin.cast hlen.symm i)) (rest.get i)) ∧
      (∀ j : Fin rest.length,
        efficiency_of sequential_time (tts.get (Fin.cast hlen.symm j)) (rest.get j)
          = efficiency_of sequential_time (tts.get (Fin.cast hlen.symm i)) (rest.get i) →
        rest.get i ≤ rest.get j) := by
  have hzlen : ((rest.zip tts).map
      (fun wt => efficiency_of sequential_time wt.2 wt.1)).length = rest.length := by
    simp only [List.length_map, List.length_zip, hlen, min_self]
  have hzne : (rest.zip tts).map
      (fun wt => efficiency_of sequential_time wt.2 wt.1) ≠ [] := by
    intro h
    apply hne
    have := hzlen
    rw [h] at this
    exact List.eq_nil_of_length_eq_zero this.symm
  obtain ⟨e, es, hz⟩ := List.exists_cons_of_ne_nil hzne
  have htts : ∀ k : Nat, k < rest.length → k < tts.length := by
    intro k hk
    rw [hlen]
    exact hk
  have hlen2 : (e :: es).length = rest.length := by
    rw [← hz]
    exact hzlen
  have hget? : ∀ (k : Nat) (hk : k < rest.length),
      (e :: es).get? k
        = some (efficiency_of sequential_time (tts.get ⟨k, htts k hk⟩)
            (rest.get ⟨k, hk⟩)) := by
    intro k hk
    rw [← hz]
    have hk' : k < ((rest.zip tts).map
        (fun wt => efficiency_of sequential_time wt.2 wt.1)).length := by
      rw [hzlen]
      exact hk
    rw [List.get?_eq_get hk']
    simp only [List.get_eq_getElem, List.getElem_map, List.getElem_zip]
  have hgetv : ∀ (k : Nat) (hk : k < rest.length) (hk2 : k < (e :: es).length),
      (e :: es).get ⟨k, hk2⟩
        = efficiency_of sequential_time (tts.get ⟨k, htts k hk⟩)
            (rest.get ⟨k, hk⟩) := by
    intro k hk hk2
    have h1 := hget? k hk
    rw [List.get?_eq_get hk2] at h1
    exact Option.some.inj h1
  have hsweep : sweep_efficiencies sequential_time (w0 :: rest) (t0 :: tts)
      = e :: es := by
    rw [sweep_efficiencies]
    simpa using hz
  have hm_mem : list_max e es ∈ e :: es := foldl_max_mem e es
  have hidx2 : (e :: es).indexOf (list_max e es) < (e :: es).length :=
    List.indexOf_lt_length.mpr hm_mem
  have hidx : (e :: es).indexOf (list_max e es) < rest.length := by
    rw [← hlen2]
    exact hidx2
  have hopt : optimal_workers sequential_time (w0 :: rest) (t0 :: tts)
      = (rest.get? ((e :: es).indexOf (list_max e es))).getD 1 := by
    unfold optimal_workers
    rw [hsweep]
    rfl
  have hidxval : (e :: es).get ⟨(e :: es).indexOf (list_max e es), hidx2⟩
      = list_max e es := List.indexOf_get hidx2
  refine ⟨⟨(e :: es).indexOf (list_max e es), hidx⟩, ?_, ?_, ?_⟩
  · rw [hopt, List.get?_eq_get hidx]
    rfl
  · intro j
    have hj2 : j.val < (e :: es).length := by
      rw [hlen2]
      exact j.isLt
    have h1 := hgetv j.val j.isLt hj2
    have h2 := hgetv ((e :: es).indexOf (list_max e es)) hidx hidx2
    have h3 : (e :: es).get ⟨j.val, hj2⟩ ≤ list_max e es :=
      le_foldl_max e es _ (List.get_mem _ _ _)
    rw [h1, ← hidxval, h2] at h3
    exact h3
  · intro j hj
    have hj2 : j.val < (e :: es).length := by
      rw [hlen2]
      exact j.isLt
    have h1 := hgetv j.val j.isLt hj2
    have h2 := hgetv ((e :: es).indexOf (list_max e es)) hidx hidx2
    have h3 : (e :: es).get ⟨j.val, hj2⟩ = list_max e es := by
      rw [h1]
      exact hj.trans (h2.symm.trans hidxval)
    have h4 : (e :: es).indexOf (list_max e es) ≤ j.val :=
      indexOf_le_of_get_eq (e :: es) (list_max e es) j.val hj2 h3
    rcases Nat.eq_or_lt_of_le h4 with h5 | h5
    · have : (⟨(e :: es).indexOf (list_max e es), hidx⟩ : Fin rest.length) = j :=
        Fin.ext h5
      rw [this]
    · exact le_of_lt
        (List.pairwise_iff_get.mp hsorted
          ⟨(e :: es).indexOf (list_max e es), hidx⟩ ⟨j.val, j.isLt⟩ h5)

/-- C9 witness: the sweep `[1, 2, 3, 5, 8, 10]` with a concrete set of wall
clocks, applied to the selection theorem (baseline `10s`, two
configurations tied on maximal efficiency). -/
theorem optimal_workers_max_efficiency_lowest_tie_witness :
    ∃ i : Fin ([2, 3, 5, 8, 10] : List Nat).length,
      optimal_workers 10 (1 :: [2, 3, 5, 8, 10])
          ((10 : ℚ) :: [5, 4, 2, 5, 6])
        = ([2, 3, 5, 8, 10] : List Nat).get i :=
  match optimal_workers_max_efficiency_lowest_tie 10 1 10 [2, 3, 5, 8, 10]
      [5, 4, 2, 5, 6] (by decide) (by decide) (by decide) with
  | ⟨i, h1, _, _⟩ => ⟨i, h1⟩
